import Mathlib

/-!
Shallow embedding of the moderation-report subsystem of the trees-backend
repository: the content-report submission routes, the universal report
endpoint (content and user reports), the admin moderation routes, and the
`ContentReport` Mongoose model.  Route handlers become pure functions from
an environment (the collaborating collections: posts, reels, users, admins)
and a store state to a result together with the new state.  JavaScript
truthiness on optional string fields is modelled explicitly.
-/

namespace TreesModeration

/-- JS truthiness of an optional string field: present and non-empty. -/
def truthyS : Option String → Bool
  | some s => !s.isEmpty
  | none => false

/-- JS `v || d` for an optional string `v`: the empty string is falsy. -/
def jsOrStr (v : Option String) (d : String) : String :=
  match v with
  | some s => if s.isEmpty then d else s
  | none => d

/-- JS `v || d` for an optional number `v`: `0` is falsy. -/
def jsOrNum (v : Option Int) (d : Int) : Int :=
  match v with
  | some n => if n == 0 then d else n
  | none => d

/-- The express-validator `.trim()` sanitizer: strip leading and trailing
whitespace (modelled by `Char.isWhitespace`). -/
def jsTrim (s : String) : String :=
  String.mk (((s.data.dropWhile Char.isWhitespace).reverse.dropWhile
    Char.isWhitespace).reverse)

/-- The `isMongoId` validator: 24 hexadecimal characters. -/
def isMongoId (s : String) : Bool :=
  s.length == 24 &&
    s.data.all (fun c => c.isDigit || ('a' ≤ c && c ≤ 'f') || ('A' ≤ c && c ≤ 'F'))

/-- Collaborating collections visible to the report routes: existing content
ids per kind, existing user ids, and the ids holding admin/moderator role. -/
structure Env where
  posts : List String
  reels : List String
  stories : List String
  comments : List String
  users : List String
  admins : List String
  deriving Repr, DecidableEq

/-- The `reportType` taxonomy accepted by the validated content-report route
(`body('reason').isIn([...])` in the route, same list as the
`ContentReport` schema enum). -/
def contentTaxonomy : List String :=
  ["inappropriate_content", "harassment", "spam", "hate_speech", "violence",
   "sexual_content", "self_harm", "bullying", "misinformation",
   "copyright_violation", "privacy_violation", "scam", "other"]

/-- The `targetType` enum of the `ContentReport` schema and the
`body('type').isIn([...])` validator. -/
def contentKinds : List String := ["post", "reel", "story", "comment"]

/-- The `severity` / `priority` enum of the `ContentReport` schema. -/
def severityTiers : List String := ["low", "medium", "high", "urgent"]

/-- A stored `ContentReport` document (src/models/ContentReport.js).
Schema defaults: `severity` "medium", `status` "pending", `priority`
"medium"; the schema computes nothing, defaults apply whenever the
route does not set the field. -/
structure ContentReport where
  reporter : String
  targetType : String
  targetId : String
  reportType : String
  reason : String
  additionalInfo : Option String
  severity : String
  status : String
  priority : String
  deriving Repr, DecidableEq, BEq

/-- Request body of the validated content-report route
(`router.post('/')` in the content-report router), together with the
authenticated user id `req.user.id`. -/
structure ContentReq where
  userId : String
  type : String
  targetId : String
  reason : String
  additionalInfo : Option String
  severity : Option String
  deriving Repr, DecidableEq

/-- The express-validator chain of the validated content-report route:
`type` in the kind enum, `targetId` a Mongo id, `reason` in the taxonomy,
optional `additionalInfo` at most 500 chars after trimming, optional
`severity` in the tier enum. -/
def validContentReq (r : ContentReq) : Bool :=
  contentKinds.contains r.type &&
  isMongoId r.targetId &&
  contentTaxonomy.contains r.reason &&
  (match r.additionalInfo with
   | some s => decide ((jsTrim s).length ≤ 500)
   | none => true) &&
  (match r.severity with
   | some s => severityTiers.contains s
   | none => true)

/-- The target-existence check shared by both content-report handlers:
`targetExists` starts `false` and only the `type === 'post'` branch ever
queries a collection (`Post.findById`); the comment in the source reads
"Add checks for other content types as needed". -/
def targetExistsCheck (env : Env) (type targetId : String) : Bool :=
  if type == "post" then env.posts.contains targetId else false

/-- The dedup query of both content-report handlers:
`ContentReport.findOne({ reporter, targetType, targetId })` — note the
query has no `status` clause. -/
def matchesDedup (uid type targetId : String) (r : ContentReport) : Bool :=
  r.reporter == uid && r.targetType == type && r.targetId == targetId

/-- Outcome of a content-report submission. -/
inductive CSubmitResult where
  /-- 400 Validation failed. -/
  | validationFailed
  /-- 404 Content not found. -/
  | contentNotFound
  /-- 400 You have already reported this content. -/
  | alreadyReported
  /-- 201 Content reported successfully; carries the stored report. -/
  | created (rep : ContentReport)
  deriving Repr, DecidableEq

/-- The validated content-report route (`router.post('/')` of the
content-report router): validation, target existence, dedup, then store a
report with `reportType := reason`,
`reason := additionalInfo || 'No additional information provided'`,
`severity := severity` (destructuring default `'medium'`), and the schema
defaults for `status` and `priority`.  The `additionalInfo` validator chain
trims the value in place before the handler reads it. -/
def reportContent (env : Env) (store : List ContentReport) (req : ContentReq) :
    CSubmitResult × List ContentReport :=
  let addl := req.additionalInfo.map jsTrim
  if !validContentReq req then
    (.validationFailed, store)
  else if !targetExistsCheck env req.type req.targetId then
    (.contentNotFound, store)
  else if store.any (matchesDedup req.userId req.type req.targetId) then
    (.alreadyReported, store)
  else
    let rep : ContentReport :=
      { reporter := req.userId
        targetType := req.type
        targetId := req.targetId
        reportType := req.reason
        reason := jsOrStr addl "No additional information provided"
        additionalInfo := addl
        severity := req.severity.getD "medium"
        status := "pending"
        priority := "medium" }
    (.created rep, store ++ [rep])

/-- Core of `reason.toLowerCase().replace(/\s+/g, '_')`: lowercase every
character and collapse each maximal run of whitespace (modelled by
`Char.isWhitespace`) into a single underscore; the flag records whether
the previous character was part of a whitespace run. -/
def collapseWsAux : Bool → List Char → List Char
  | _, [] => []
  | prevWs, c :: rest =>
    if c.isWhitespace then
      if prevWs then collapseWsAux true rest
      else '_' :: collapseWsAux true rest
    else
      c.toLower :: collapseWsAux false rest

/-- `reason.toLowerCase().replace(/\s+/g, '_')` from the universal route's
content-report handler. -/
def normalizeReason (s : String) : String :=
  String.mk (collapseWsAux false s.data)

/-- One entry of a report's `actionsTaken` log, as pushed by the admin
moderation routes: `{ action, reason, takenBy, takenAt }`. -/
structure ActionEntry where
  action : String
  reason : String
  takenBy : Option String
  takenAt : Nat
  deriving Repr, DecidableEq, BEq

/-- A stored document of the user-report model (`models/Reports.js`).  The
fields through `severityN` are exactly those the universal route's
`handleUserReport` sets.  Modelled from the spec: `models/Reports.js`
itself is not under src/ (only its callers are), so the schema defaults
`status := "pending"` (initial state, spec section 4.4), empty
`actionsTaken` (append-only action log, spec section 3) and absent
`adminNotes` are taken from the spec. -/
structure UserReport where
  id : String
  reporter : String
  reportedUser : String
  reportType : String
  reason : String
  evidence : List String
  category : String
  severityN : Int
  status : String
  adminNotes : Option String
  actionsTaken : List ActionEntry
  deriving Repr, DecidableEq, BEq

/-- Request body of the universal report endpoint, with the authenticated
user id.  `severityS` is the `severity` field as the content path reads it
(a string tier); `severityN` is the same field as the user path reads it
(a number). -/
structure UniReq where
  userId : String
  type : Option String
  targetId : Option String
  reason : Option String
  additionalInfo : Option String
  severityS : Option String
  reportedUserId : Option String
  reportType : Option String
  severityN : Option Int
  evidence : List String
  category : Option String
  deriving Repr, DecidableEq

/-- The two report collections the universal endpoint writes to. -/
structure Stores where
  contentReports : List ContentReport
  userReports : List UserReport
  deriving Repr, DecidableEq

/-- Outcome of a universal-endpoint submission. -/
inductive UniResult where
  /-- 400 Content reports require type, targetId, and reason. -/
  | missingContentFields
  /-- 404 Content not found. -/
  | contentNotFound
  /-- 400 You have already reported this content. -/
  | alreadyReportedContent
  /-- 201 Content reported successfully. -/
  | contentCreated (rep : ContentReport)
  /-- 400 User reports require reportedUserId, reportType, and reason. -/
  | missingUserFields
  /-- 400 Cannot report yourself. -/
  | selfReport
  /-- 404 Reported user not found. -/
  | userNotFound
  /-- 400 You have already reported this user. -/
  | alreadyReportedUser
  /-- 201 User reported successfully. -/
  | userCreated (rep : UserReport)
  /-- 400 Invalid report format. -/
  | invalidFormat
  deriving Repr, DecidableEq

/-- `handleContentReport` of the universal route: required-field check,
target existence, dedup, then store a report with
`reportType := reason.toLowerCase().replace(/\s+/g, '_')` and
`reason := additionalInfo || reason`. -/
def handleContentReportU (env : Env) (st : Stores) (req : UniReq) :
    UniResult × Stores :=
  if !(truthyS req.type && truthyS req.targetId && truthyS req.reason) then
    (.missingContentFields, st)
  else
    let t := req.type.getD ""
    let tid := req.targetId.getD ""
    let rsn := req.reason.getD ""
    if !targetExistsCheck env t tid then
      (.contentNotFound, st)
    else if st.contentReports.any (matchesDedup req.userId t tid) then
      (.alreadyReportedContent, st)
    else
      let rep : ContentReport :=
        { reporter := req.userId
          targetType := t
          targetId := tid
          reportType := normalizeReason rsn
          reason := jsOrStr req.additionalInfo rsn
          additionalInfo := req.additionalInfo
          severity := req.severityS.getD "medium"
          status := "pending"
          priority := "medium" }
      (.contentCreated rep, { st with contentReports := st.contentReports ++ [rep] })

/-- `handleUserReport` of the universal route: required fields, self-report
check, reported-user existence, dedup (again with no status clause), then
store a `Report` document; `freshId` models the generated document id. -/
def handleUserReport (env : Env) (st : Stores) (req : UniReq) (freshId : String) :
    UniResult × Stores :=
  if !(truthyS req.reportedUserId && truthyS req.reportType && truthyS req.reason) then
    (.missingUserFields, st)
  else
    let ru := req.reportedUserId.getD ""
    if ru == req.userId then
      (.selfReport, st)
    else if !env.users.contains ru then
      (.userNotFound, st)
    else if st.userReports.any (fun r => r.reporter == req.userId && r.reportedUser == ru) then
      (.alreadyReportedUser, st)
    else
      let rep : UserReport :=
        { id := freshId
          reporter := req.userId
          reportedUser := ru
          reportType := req.reportType.getD ""
          reason := req.reason.getD ""
          evidence := req.evidence
          category := jsOrStr req.category "behavior"
          severityN := jsOrNum req.severityN 5
          status := "pending"
          adminNotes := none
          actionsTaken := [] }
      (.userCreated rep, { st with userReports := st.userReports ++ [rep] })

/-- The universal report endpoint (`router.post('/')` of the reports
router): dispatch on JS truthiness of `type`/`targetId` (content report)
and `reportedUserId` (user report), else 400 invalid format. -/
def universalReport (env : Env) (st : Stores) (req : UniReq) (freshId : String) :
    UniResult × Stores :=
  if truthyS req.type && truthyS req.targetId then
    handleContentReportU env st req
  else if truthyS req.reportedUserId then
    handleUserReport env st req freshId
  else
    (.invalidFormat, st)

/-- One `User.findByIdAndUpdate` call issued by the action route when a ban
is applied: the update document sets `status` and, for temporary bans only,
`suspendedUntil`. -/
structure DirUpdate where
  userId : String
  status : String
  suspendedUntil : Option Nat
  deriving Repr, DecidableEq, BEq

/-- State threaded through the admin action route: the user-report
collection and the log of directory-update calls issued so far. -/
structure ModState where
  userReports : List UserReport
  dirCalls : List DirUpdate
  deriving Repr, DecidableEq

/-- Mongoose `report.save()` after mutating the document found by id:
replace the document with that id. -/
def replaceReport (l : List UserReport) (id : String) (r' : UserReport) :
    List UserReport :=
  l.map (fun r => if r.id == id then r' else r)

/-- Error raised by the modelled `takeAction`. -/
inductive ActionError where
  | invalidTransition
  deriving Repr, DecidableEq

/-- Modelled from the spec: `report.takeAction(action, details, adminId)`
lives in `models/Reports.js`, which is not under src/ (only its callers
are).  Per spec section 5 a retry of an identical action is detected via
the `(reportId, action, actorId)` idempotency key and treated as a no-op;
per sections 4.4/4.5 a call against a terminal (`resolved`/`dismissed`)
report fails with `InvalidTransitionError`; otherwise the action is
appended to `actionsTaken` with a `takenAt` timestamp. -/
def takeActionModel (r : UserReport) (action details actorId : String) (now : Nat) :
    Except ActionError UserReport :=
  if r.actionsTaken.any (fun e => e.action == action && e.takenBy == some actorId) then
    .ok r
  else if r.status == "resolved" || r.status == "dismissed" then
    .error .invalidTransition
  else
    .ok { r with
          actionsTaken := r.actionsTaken ++
            [{ action := action, reason := details, takenBy := some actorId, takenAt := now }] }

/-- The `body('action').isIn([...])` validator of the action route. -/
def actionNames : List String :=
  ["none", "warning", "temporary_ban", "permanent_ban", "content_removal",
   "profile_restriction"]

/-- `7 * 24 * 60 * 60 * 1000`, the temporary-ban duration in milliseconds. -/
def banMillis : Nat := 7 * 24 * 60 * 60 * 1000

/-- Outcome of the action route. -/
inductive ActionResult where
  /-- 400 Validation failed. -/
  | validationFailed
  /-- 403 Access denied. -/
  | forbidden
  /-- 404 Report not found. -/
  | notFound
  /-- 500 Failed to take action on report (the `catch` block). -/
  | serverError
  /-- 200 Action taken successfully. -/
  | success
  deriving Repr, DecidableEq

/-- The express-validator chain of the action route: `action` in the enum
and `details` between 10 and 1000 characters after the `.trim()`
sanitizer. -/
def actionReqValid (action details : String) : Bool :=
  actionNames.contains action && decide (10 ≤ (jsTrim details).length) &&
    decide ((jsTrim details).length ≤ 1000)

/-- The update document of the `User.findByIdAndUpdate` call in the action
route's ban branch: `status: 'suspended'` always; `suspendedUntil` only for
`temporary_ban` (the null `banDuration` spreads to nothing for
`permanent_ban`). -/
def banUpd (action : String) (r : UserReport) (now : Nat) : DirUpdate :=
  { userId := r.reportedUser
    status := "suspended"
    suspendedUntil :=
      if action == "temporary_ban" then some (now + banMillis) else none }

/-- The admin action route (`router.put('/:reportId/action')`): validator
(`action` in the enum, `details` trimmed to 10..1000 chars), admin check,
report lookup, `report.takeAction(...)`, then — for `temporary_ban` /
`permanent_ban` — a `User.findByIdAndUpdate(report.reportedUser, ...)`
setting `status: 'suspended'` and, for temporary bans only,
`suspendedUntil: Date.now() + 7 days`.  The directory update is issued on
every pass through the ban branch, with no idempotency check of its own. -/
def actionRoute (env : Env) (st : ModState)
    (reportId action details actorId : String) (now : Nat) :
    ActionResult × ModState :=
  if !actionReqValid action details then
    (.validationFailed, st)
  else if !env.admins.contains actorId then
    (.forbidden, st)
  else
    match st.userReports.find? (fun r => r.id == reportId) with
    | none => (.notFound, st)
    | some r =>
      match takeActionModel r action (jsTrim details) actorId now with
      | .error _ => (.serverError, st)
      | .ok r' =>
        let st' : ModState := { st with userReports := replaceReport st.userReports reportId r' }
        if action == "temporary_ban" || action == "permanent_ban" then
          (.success, { st' with dirCalls := st'.dirCalls ++ [banUpd action r now] })
        else
          (.success, st')

/-- The actions accepted by the admin moderate route. -/
def moderateActions : List String := ["approve", "reject", "mark_safe"]

/-- Outcome of the moderate route. -/
inductive ModerateResult where
  /-- 400 Invalid action. -/
  | invalidAction
  /-- 404 Report not found. -/
  | notFound
  /-- 200 Content moderated successfully; carries the new status. -/
  | moderated (status : String)
  deriving Repr, DecidableEq

/-- The admin moderate route
(`router.patch('/moderation/reports/:id/moderate')`): validate the action,
find the report, map `approve`/`mark_safe` to `resolved` and `reject` to
`dismissed`, optionally overwrite `adminNotes`, push an `actionsTaken`
entry, and save.  The route reads the report's current status nowhere. -/
def moderateRoute (st : List UserReport) (id action : String)
    (reason adminNotes actorId : Option String) (now : Nat) :
    ModerateResult × List UserReport :=
  if !moderateActions.contains action then
    (.invalidAction, st)
  else
    match st.find? (fun r => r.id == id) with
    | none => (.notFound, st)
    | some r =>
      let status :=
        if action == "approve" then "resolved"
        else if action == "reject" then "dismissed"
        else "resolved"
      let entryAction :=
        if action == "approve" then "no_action"
        else if action == "reject" then "content_removal"
        else "no_action"
      let r' : UserReport :=
        { r with
          status := status
          adminNotes := if truthyS adminNotes then adminNotes else r.adminNotes
          actionsTaken := r.actionsTaken ++
            [{ action := entryAction
               reason := jsOrStr reason ("Content " ++ action ++ "d by admin")
               takenBy := actorId
               takenAt := now }] }
      (.moderated status, replaceReport st id r')

-- ### Concrete fixtures used by counterexamples and witnesses

/-- A well-formed Mongo object id used as the target id in fixtures. -/
def mid : String := "aaaaaaaaaaaaaaaaaaaaaaaa"

/-- Environment with one existing post, two users and one admin. -/
def env1 : Env :=
  { posts := [mid], reels := [], stories := [], comments := [],
    users := ["u1", "u2"], admins := ["a1"] }

/-- A valid submission with reason `self_harm` and severity `low`. -/
def reqSelfHarm : ContentReq :=
  { userId := "u1", type := "post", targetId := mid,
    reason := "self_harm", additionalInfo := none, severity := some "low" }

/-- The report `reqSelfHarm` creates on an empty store. -/
def repSelfHarm : ContentReport :=
  { reporter := "u1", targetType := "post", targetId := mid,
    reportType := "self_harm", reason := "No additional information provided",
    additionalInfo := none, severity := "low", status := "pending",
    priority := "medium" }

/-- An earlier report by u1 against the same target whose status is the
terminal "resolved". -/
def resolvedRep : ContentReport :=
  { reporter := "u1", targetType := "post", targetId := mid,
    reportType := "spam", reason := "x", additionalInfo := none,
    severity := "medium", status := "resolved", priority := "medium" }

/-- A fresh valid submission by u1 for the same tuple as `resolvedRep`. -/
def reqSpam : ContentReq :=
  { userId := "u1", type := "post", targetId := mid,
    reason := "spam", additionalInfo := none, severity := none }

/-- Environment whose reel collection contains the target `mid`. -/
def env2 : Env :=
  { posts := [], reels := [mid], stories := [], comments := [],
    users := [], admins := [] }

/-- A valid submission of kind "reel" whose target exists in `env2`. -/
def reqReel : ContentReq :=
  { userId := "u1", type := "reel", targetId := mid,
    reason := "spam", additionalInfo := none, severity := none }

/-- A stored user report in the terminal status "resolved". -/
def ur1 : UserReport :=
  { id := "r1", reporter := "u1", reportedUser := "u2", reportType := "spam",
    reason := "spam spam spam", evidence := [], category := "behavior",
    severityN := 5, status := "resolved", adminNotes := none, actionsTaken := [] }

/-- Action-route state holding the pending variant of `ur1` and an empty
directory-call log. -/
def ms1 : ModState :=
  { userReports := [{ ur1 with status := "pending" }], dirCalls := [] }

/-- First concrete ban-action call on the pending report `r1`. -/
def banCall1 := actionRoute env1 ms1 "r1" "temporary_ban" "ban this user now" "a1" 100

/-- Identical retry of `banCall1` (same reportId, action and actorId). -/
def banCall2 := actionRoute env1 banCall1.2 "r1" "temporary_ban" "ban this user now" "a1" 200

/-- The empty pair of report collections. -/
def stEmpty : Stores := { contentReports := [], userReports := [] }

/-- A universal-endpoint content submission with a spaced, capitalized
reason and no additionalInfo. -/
def uniReqContent : UniReq :=
  { userId := "u1", type := some "post", targetId := some mid,
    reason := some "Inappropriate content", additionalInfo := none,
    severityS := none, reportedUserId := none, reportType := none,
    severityN := none, evidence := [], category := none }

/-- The report `uniReqContent` creates on the empty store. -/
def uniRepContent : ContentReport :=
  { reporter := "u1", targetType := "post", targetId := mid,
    reportType := "inappropriate_content", reason := "Inappropriate content",
    additionalInfo := none, severity := "medium", status := "pending",
    priority := "medium" }

/-- A body with a `type` but no `targetId` and no `reportedUserId`:
matches neither dispatch arm. -/
def uniReqInvalid : UniReq :=
  { userId := "u1", type := some "post", targetId := none,
    reason := none, additionalInfo := none, severityS := none,
    reportedUserId := none, reportType := none, severityN := none,
    evidence := [], category := none }

-- ### Claim C1: deduplication

/-- Claim C1 (corrected), counterexample: `resolvedRep` is the only report
by reporter u1 against the post target and its status is the terminal
"resolved", yet a fresh submission by u1 for the same
(reporter, targetKind, targetId) tuple is rejected as a duplicate instead
of succeeding — resolved reports do block re-reporting. -/
theorem claim_C1_counterexample :
    resolvedRep.status = "resolved" ∧
    reportContent env1 [resolvedRep] reqSpam = (.alreadyReported, [resolvedRep]) := by
  decide

/-- Claim C1 (amended): for a well-formed submission whose target passes
the existence check, the dedup guard rejects whenever ANY earlier report by
the same reporter against the same (targetKind, targetId) exists —
regardless of its status, terminal or open — and a submission goes through
(a pending report is appended) exactly when no such report exists at all. -/
theorem claim_C1_amended (env : Env) (store : List ContentReport) (req : ContentReq)
    (hv : validContentReq req = true)
    (ht : targetExistsCheck env req.type req.targetId = true) :
    (store.any (matchesDedup req.userId req.type req.targetId) = true →
      reportContent env store req = (.alreadyReported, store)) ∧
    (store.any (matchesDedup req.userId req.type req.targetId) = false →
      ∃ rep, reportContent env store req = (.created rep, store ++ [rep]) ∧
        rep.reporter = req.userId ∧ rep.targetType = req.type ∧
        rep.targetId = req.targetId ∧ rep.reportType = req.reason ∧
        rep.status = "pending") := by
  constructor
  · intro hdup
    simp [reportContent, hv, ht, hdup]
  · intro hdup
    refine ⟨{ reporter := req.userId, targetType := req.type, targetId := req.targetId,
              reportType := req.reason,
              reason := jsOrStr (req.additionalInfo.map jsTrim)
                "No additional information provided",
              additionalInfo := req.additionalInfo.map jsTrim,
              severity := req.severity.getD "medium", status := "pending",
              priority := "medium" }, ?_, rfl, rfl, rfl, rfl, rfl⟩
    simp [reportContent, hv, ht, hdup]

/-- Witness for `claim_C1_amended` at a concrete input: with `resolvedRep`
in the store the duplicate branch fires; with an empty store the creation
branch fires. -/
theorem claim_C1_amended_witness :
    reportContent env1 [resolvedRep] reqSpam = (.alreadyReported, [resolvedRep]) ∧
    ∃ rep, reportContent env1 [] reqSpam = (.created rep, [] ++ [rep]) ∧
      rep.reporter = reqSpam.userId ∧ rep.targetType = reqSpam.type ∧
      rep.targetId = reqSpam.targetId ∧ rep.reportType = reqSpam.reason ∧
      rep.status = "pending" :=
  ⟨(claim_C1_amended env1 [resolvedRep] reqSpam (by decide) (by decide)).1 (by decide),
   (claim_C1_amended env1 [] reqSpam (by decide) (by decide)).2 (by decide)⟩

-- ### Claim C2: priority computation

/-- Claim C2 (corrected), counterexample: a content report with
`reasonCode = self_harm` and severity `low` is stored with priority
"medium" (the schema default), not the "high" floor the claim requires. -/
theorem claim_C2_counterexample :
    reportContent env1 [] reqSelfHarm = (.created repSelfHarm, [repSelfHarm]) ∧
    repSelfHarm.reportType = "self_harm" ∧ repSelfHarm.severity = "low" ∧
    repSelfHarm.priority = "medium" ∧ repSelfHarm.priority ≠ "high" := by
  decide

/-- Claim C2 (amended): on both content-report creation paths the stored
priority is the constant schema default "medium", independent of
`reasonCode` and `severity`; no priority computation happens at creation. -/
theorem claim_C2_amended :
    (∀ (env : Env) (store store' : List ContentReport) (req : ContentReq)
       (rep : ContentReport),
       reportContent env store req = (.created rep, store') →
       rep.priority = "medium") ∧
    (∀ (env : Env) (st st' : Stores) (req : UniReq) (rep : ContentReport),
       handleContentReportU env st req = (.contentCreated rep, st') →
       rep.priority = "medium") := by
  constructor
  · intro env store store' req rep h
    simp only [reportContent] at h
    split at h
    · simp at h
    split at h
    · simp at h
    split at h
    · simp at h
    · obtain ⟨h1, -⟩ := Prod.mk.injEq .. ▸ h
      cases h1
      rfl
  · intro env st st' req rep h
    simp only [handleContentReportU] at h
    split at h
    · simp at h
    split at h
    · simp at h
    split at h
    · simp at h
    · obtain ⟨h1, -⟩ := Prod.mk.injEq .. ▸ h
      cases h1
      rfl

/-- Witness for `claim_C2_amended`: the self-harm/low report just created
carries priority "medium". -/
theorem claim_C2_amended_witness :
    repSelfHarm.priority = "medium" :=
  claim_C2_amended.1 env1 [] [repSelfHarm] reqSelfHarm repSelfHarm (by decide)

-- ### Claim C6: target existence check

/-- Claim C6 (code bug), failing input: a validated report of kind "reel"
whose target does exist in the reel collection is still rejected with 404
"Content not found", because only the `post` branch of the existence check
was ever implemented (the source comment reads "Add checks for other
content types as needed") even though the route's validator accepts
`reel`, `story` and `comment`. -/
theorem claim_C6_bug :
    validContentReq reqReel = true ∧
    env2.reels.contains reqReel.targetId = true ∧
    reportContent env2 [] reqReel = (.contentNotFound, []) := by
  decide


-- ### Claim C7: details validation precedes mutation

/-- Claim C7 (confirmed): the action route's validator (details at least 10
chars after the `.trim()` sanitizer) runs before the admin check, the
report lookup, `takeAction` and the ban side effect, so a call with
too-short details is rejected with the state — report collection and
directory-call log — entirely unchanged. -/
theorem claim_C7 (env : Env) (st : ModState)
    (reportId action details actorId : String) (now : Nat)
    (hshort : (jsTrim details).length < 10) :
    actionRoute env st reportId action details actorId now = (.validationFailed, st) := by
  have hd : decide (10 ≤ (jsTrim details).length) = false :=
    decide_eq_false (Nat.not_le.mpr hshort)
  simp [actionRoute, actionReqValid, hd]

/-- Witness for `claim_C7`: a five-character justification is rejected and
the state is untouched. -/
theorem claim_C7_witness :
    actionRoute env1 ms1 "r1" "temporary_ban" "short" "a1" 100 =
      (.validationFailed, ms1) :=
  claim_C7 env1 ms1 "r1" "temporary_ban" "short" "a1" 100 (by decide)

-- ### Claim C3: terminal immutability

/-- Claim C3 (corrected), counterexample: `ur1` has terminal status
"resolved", yet the moderate route happily re-moderates it: the call
succeeds (no `InvalidTransitionError`), the status is overwritten to
"dismissed" and an entry is appended to `actionsTaken`. -/
theorem claim_C3_counterexample :
    ur1.status = "resolved" ∧
    (moderateRoute [ur1] "r1" "reject" none none (some "a1") 100).1 =
      .moderated "dismissed" ∧
    ((moderateRoute [ur1] "r1" "reject" none none (some "a1") 100).2.map
      (fun r => r.status)) = ["dismissed"] ∧
    ((moderateRoute [ur1] "r1" "reject" none none (some "a1") 100).2.map
      (fun r => r.actionsTaken.length)) = [1] := by
  decide

/-- Claim C3 (amended): the moderate route never inspects the report's
current status: for ANY found report — terminal or not — a valid action
succeeds, overwrites the status ("dismissed" for reject, "resolved"
otherwise) and appends exactly one `actionsTaken` entry; no transition
check exists. -/
theorem claim_C3_amended (st : List UserReport) (r : UserReport)
    (id action : String) (reason adminNotes actorId : Option String) (now : Nat)
    (hact : moderateActions.contains action = true)
    (hfind : st.find? (fun x => x.id == id) = some r) :
    ∃ r', moderateRoute st id action reason adminNotes actorId now =
        (.moderated r'.status, replaceReport st id r') ∧
      r'.actionsTaken.length = r.actionsTaken.length + 1 ∧
      r'.status = (if action == "reject" then "dismissed" else "resolved") := by
  refine ⟨{ r with
      status :=
        if action == "approve" then "resolved"
        else if action == "reject" then "dismissed"
        else "resolved"
      adminNotes := if truthyS adminNotes then adminNotes else r.adminNotes
      actionsTaken := r.actionsTaken ++
        [{ action :=
             if action == "approve" then "no_action"
             else if action == "reject" then "content_removal"
             else "no_action"
           reason := jsOrStr reason ("Content " ++ action ++ "d by admin")
           takenBy := actorId
           takenAt := now }] }, ?_, ?_, ?_⟩
  · have hmem : action ∈ moderateActions := by simpa using hact
    simp [moderateRoute, hmem, hfind]
  · simp
  · by_cases h : action = "approve"
    · subst h
      simp
    · have hb : (action == "approve") = false := by
        simp [h]
      simp [hb]

/-- Witness for `claim_C3_amended` at the concrete resolved report `ur1`:
the reject action goes through and appends an entry. -/
theorem claim_C3_amended_witness :
    ∃ r', moderateRoute [ur1] "r1" "reject" none none (some "a1") 100 =
        (.moderated r'.status, replaceReport [ur1] "r1" r') ∧
      r'.actionsTaken.length = ur1.actionsTaken.length + 1 ∧
      r'.status = (if "reject" == "reject" then "dismissed" else "resolved") :=
  claim_C3_amended [ur1] ur1 "r1" "reject" none none (some "a1") 100
    (by decide) (by decide)

-- ### Claim C9: stored narrative when additionalInfo is omitted

/-- Claim C9 (confirmed): when the optional `additionalInfo` is omitted,
the validated route stores the placeholder "No additional information
provided" as the free-text `reason` while the taxonomy value goes to
`reportType`; the universal route stores the raw `reason` value as the
narrative and the lowercased/underscored taxonomy in `reportType`.  In
neither case does the stored narrative combine reporter narrative with the
taxonomy. -/
theorem claim_C9 :
    (∀ (env : Env) (store store' : List ContentReport) (req : ContentReq)
       (rep : ContentReport),
       req.additionalInfo = none →
       reportContent env store req = (.created rep, store') →
       rep.reason = "No additional information provided" ∧
         rep.reportType = req.reason) ∧
    (∀ (env : Env) (st st' : Stores) (req : UniReq) (rep : ContentReport),
       req.additionalInfo = none →
       handleContentReportU env st req = (.contentCreated rep, st') →
       rep.reason = req.reason.getD "" ∧
         rep.reportType = normalizeReason (req.reason.getD "")) := by
  constructor
  · intro env store store' req rep haddl h
    simp only [reportContent] at h
    split at h
    · simp at h
    split at h
    · simp at h
    split at h
    · simp at h
    · obtain ⟨h1, -⟩ := Prod.mk.injEq .. ▸ h
      cases h1
      simp [haddl, jsOrStr]
  · intro env st st' req rep haddl h
    simp only [handleContentReportU] at h
    split at h
    · simp at h
    split at h
    · simp at h
    split at h
    · simp at h
    · obtain ⟨h1, -⟩ := Prod.mk.injEq .. ▸ h
      cases h1
      simp [haddl, jsOrStr]

/-- Witness for `claim_C9`: the self-harm submission (no additionalInfo)
stores the placeholder on the validated route, and a concrete universal
submission stores the raw reason plus the normalized taxonomy. -/
theorem claim_C9_witness :
    (repSelfHarm.reason = "No additional information provided" ∧
      repSelfHarm.reportType = reqSelfHarm.reason) ∧
    (uniRepContent.reason = uniReqContent.reason.getD "" ∧
      uniRepContent.reportType = normalizeReason (uniReqContent.reason.getD "")) :=
  ⟨claim_C9.1 env1 [] [repSelfHarm] reqSelfHarm repSelfHarm rfl (by decide),
   claim_C9.2 env1 stEmpty (handleContentReportU env1 stEmpty uniReqContent).2
     uniReqContent uniRepContent rfl (by decide)⟩


-- ### Claim C10: universal endpoint dispatch

/-- The content-report path of the universal endpoint never touches the
user-report collection. -/
theorem handleContentReportU_userReports (env : Env) (st : Stores) (req : UniReq) :
    (handleContentReportU env st req).2.userReports = st.userReports := by
  simp only [handleContentReportU]
  split
  · rfl
  split
  · rfl
  split
  · rfl
  · rfl

/-- The user-report path of the universal endpoint never touches the
content-report collection. -/
theorem handleUserReport_contentReports (env : Env) (st : Stores) (req : UniReq)
    (fid : String) :
    (handleUserReport env st req fid).2.contentReports = st.contentReports := by
  simp only [handleUserReport]
  split
  · rfl
  split
  · rfl
  split
  · rfl
  split
  · rfl
  · rfl

/-- Claim C10 (confirmed): the universal endpoint dispatches on truthiness
of `type`/`targetId` (content report, user collection untouched), else on
truthiness of `reportedUserId` (user report, content collection untouched),
else returns the 400 invalid-format error with both collections — hence
the whole state — unchanged. -/
theorem claim_C10 (env : Env) (st : Stores) (req : UniReq) (fid : String) :
    ((truthyS req.type && truthyS req.targetId) = true →
      universalReport env st req fid = handleContentReportU env st req ∧
      (universalReport env st req fid).2.userReports = st.userReports) ∧
    ((truthyS req.type && truthyS req.targetId) = false →
      truthyS req.reportedUserId = true →
      universalReport env st req fid = handleUserReport env st req fid ∧
      (universalReport env st req fid).2.contentReports = st.contentReports) ∧
    ((truthyS req.type && truthyS req.targetId) = false →
      truthyS req.reportedUserId = false →
      universalReport env st req fid = (.invalidFormat, st)) := by
  refine ⟨fun hc => ⟨?_, ?_⟩, fun hc hu => ⟨?_, ?_⟩, fun hc hu => ?_⟩
  · simp [universalReport, hc]
  · simp [universalReport, hc, handleContentReportU_userReports]
  · simp [universalReport, hc, hu]
  · simp [universalReport, hc, hu, handleUserReport_contentReports]
  · simp [universalReport, hc, hu]

/-- Witness for `claim_C10`: a body with only a `type` field falls through
both dispatch checks and is rejected as invalid format with the state
unchanged; a content body dispatches to the content handler. -/
theorem claim_C10_witness :
    (universalReport env1 stEmpty uniReqInvalid "f1" = (.invalidFormat, stEmpty)) ∧
    (universalReport env1 stEmpty uniReqContent "f1" =
      handleContentReportU env1 stEmpty uniReqContent) :=
  ⟨(claim_C10 env1 stEmpty uniReqInvalid "f1").2.2 (by decide) (by decide),
   ((claim_C10 env1 stEmpty uniReqContent "f1").1 (by decide)).1⟩

-- ### Claim C8: no stored self-report

/-- Running a list of universal-endpoint submissions in order, threading
the store state. -/
def runUniversal (env : Env) : List (UniReq × String) → Stores → Stores
  | [], st => st
  | (req, fid) :: rest, st =>
    runUniversal env rest (universalReport env st req fid).2

/-- One universal-endpoint call preserves the no-self-report property of
the user-report collection: the self-report guard rejects
`reportedUserId === req.user.id` before anything is stored. -/
theorem universalReport_no_self (env : Env) (st : Stores) (req : UniReq)
    (fid : String)
    (h : st.userReports.all (fun r => r.reporter != r.reportedUser) = true) :
    (universalReport env st req fid).2.userReports.all
      (fun r => r.reporter != r.reportedUser) = true := by
  simp only [universalReport]
  split
  · rw [handleContentReportU_userReports]
    exact h
  split
  · simp only [handleUserReport]
    split
    · exact h
    split
    · exact h
    split
    · exact h
    split
    · exact h
    · rename_i hru _ _
      simp only [List.all_append, List.all_cons, List.all_nil, Bool.and_true, h,
        Bool.true_and]
      have hne : ¬ req.reportedUserId.getD "" = req.userId := by simpa using hru
      simp [bne]
      exact fun hcontra => hne hcontra.symm
  · exact h

/-- Claim C8 (confirmed): starting from an empty store, after any sequence
of universal-endpoint submissions no stored user report has its reporter
equal to its reported user — a self-report is never stored. -/
theorem claim_C8 (env : Env) (reqs : List (UniReq × String)) :
    ((runUniversal env reqs stEmpty).userReports.all
      (fun r => r.reporter != r.reportedUser)) = true := by
  have gen : ∀ (l : List (UniReq × String)) (st : Stores),
      st.userReports.all (fun r => r.reporter != r.reportedUser) = true →
      (runUniversal env l st).userReports.all
        (fun r => r.reporter != r.reportedUser) = true := by
    intro l
    induction l with
    | nil => intro st h; exact h
    | cons p rest ih =>
      intro st h
      exact ih _ (universalReport_no_self env st p.1 p.2 h)
  exact gen reqs stEmpty rfl


-- ### Claims C4 and C5: ban side effect and idempotency

/-- A successful `takeAction` preserves the document id and the reported
user. -/
theorem takeActionModel_ok_id (r r' : UserReport) (a d act : String) (now : Nat)
    (h : takeActionModel r a d act now = .ok r') :
    r'.id = r.id ∧ r'.reportedUser = r.reportedUser := by
  simp only [takeActionModel] at h
  split at h
  · injection h with h2
    subst h2
    exact ⟨rfl, rfl⟩
  split at h
  · simp at h
  · injection h with h2
    subst h2
    exact ⟨rfl, rfl⟩

/-- After a successful `takeAction`, the `(action, actorId)` idempotency
key is present in the report's `actionsTaken`. -/
theorem takeActionModel_ok_key (r r' : UserReport) (a d act : String) (now : Nat)
    (h : takeActionModel r a d act now = .ok r') :
    r'.actionsTaken.any (fun e => e.action == a && e.takenBy == some act) = true := by
  simp only [takeActionModel] at h
  split at h
  · rename_i hkey
    injection h with h2
    subst h2
    exact hkey
  split at h
  · simp at h
  · injection h with h2
    subst h2
    simp

/-- When the `(action, actorId)` key is already present, `takeAction` is a
no-op returning the report unchanged. -/
theorem takeActionModel_noop (r : UserReport) (a d act : String) (now : Nat)
    (hkey : r.actionsTaken.any (fun e => e.action == a && e.takenBy == some act) = true) :
    takeActionModel r a d act now = .ok r := by
  simp [takeActionModel, hkey]

/-- Replacing the found report keeps it findable: after `replaceReport`,
looking up the same id yields the replacement. -/
theorem find?_replaceReport (l : List UserReport) (id : String) (r r' : UserReport)
    (hid : r'.id = r.id)
    (h : l.find? (fun x => x.id == id) = some r) :
    (replaceReport l id r').find? (fun x => x.id == id) = some r' := by
  induction l with
  | nil => simp at h
  | cons a t ih =>
    by_cases ha : (a.id == id) = true
    · simp only [List.find?, ha] at h
      injection h with h2
      subst h2
      have hrid : (r'.id == id) = true := by
        rw [hid]
        exact ha
      simp only [replaceReport, List.map_cons, ha, if_true, List.find?, hrid]
    · have ha' : (a.id == id) = false := by
        simpa using ha
      simp only [List.find?, ha'] at h
      simp only [replaceReport, List.map_cons, ha', Bool.false_eq_true, if_false,
        List.find?]
      simpa only [replaceReport] using ih h

/-- Replacing with the same replacement twice is the same as once. -/
theorem replaceReport_idem (l : List UserReport) (id : String) (r' : UserReport) :
    replaceReport (replaceReport l id r') id r' = replaceReport l id r' := by
  simp only [replaceReport, List.map_map]
  apply List.map_congr_left
  intro a _
  by_cases ha : (a.id == id) = true
  · simp [Function.comp, ha]
  · simp [Function.comp, ha]

/-- Inversion of a successful ban-action call: the validators and the admin
check passed, a report was found, `takeAction` succeeded, the report was
saved back and exactly one directory update was appended. -/
theorem actionRoute_ban_dir (env : Env) (st st' : ModState)
    (reportId action details actorId : String) (now : Nat)
    (hban : action = "temporary_ban" ∨ action = "permanent_ban")
    (h : actionRoute env st reportId action details actorId now = (.success, st')) :
    ∃ r r', st.userReports.find? (fun x => x.id == reportId) = some r ∧
      takeActionModel r action (jsTrim details) actorId now = .ok r' ∧
      st'.userReports = replaceReport st.userReports reportId r' ∧
      st'.dirCalls = st.dirCalls ++ [banUpd action r now] ∧
      actionReqValid action details = true ∧
      env.admins.contains actorId = true := by
  have hbb : (action == "temporary_ban" || action == "permanent_ban") = true := by
    rcases hban with h1 | h1 <;> simp [h1]
  simp only [actionRoute] at h
  split at h
  · simp at h
  · rename_i hval
    split at h
    · simp at h
    · rename_i hadm
      split at h
      · simp at h
      · rename_i r hfind
        split at h
        · simp at h
        · rename_i r' hok
          obtain ⟨-, h2⟩ := Prod.mk.injEq .. ▸ h
          cases h2
          exact ⟨r, r', hfind, hok, rfl, rfl, by simpa using hval,
            by simpa using hadm⟩

/-- Forward evaluation of a ban-action call when the idempotency key is
already present on the found report: `takeAction` no-ops, the report is
saved back unchanged, and the directory update is still issued. -/
theorem actionRoute_eval_ban (env : Env) (st : ModState)
    (reportId action details actorId : String) (now : Nat) (r : UserReport)
    (hval : actionReqValid action details = true)
    (hadm : env.admins.contains actorId = true)
    (hbb : (action == "temporary_ban" || action == "permanent_ban") = true)
    (hfind : st.userReports.find? (fun x => x.id == reportId) = some r)
    (hkey : r.actionsTaken.any (fun e => e.action == action && e.takenBy == some actorId) = true) :
    actionRoute env st reportId action details actorId now =
      (.success, { userReports := replaceReport st.userReports reportId r,
                   dirCalls := st.dirCalls ++ [banUpd action r now] }) := by
  simp only [actionRoute, hval, hadm, hfind,
    takeActionModel_noop r action (jsTrim details) actorId now hkey, hbb,
    Bool.not_true, if_true]
  simp

/-- Claim C4 (confirmed): every successful `temporary_ban` /
`permanent_ban` action on a user report issues a directory update setting
the reported user's status to "suspended", with `suspendedUntil` seven
days (in ms) past `now` for a temporary ban and absent for a permanent
ban. -/
theorem claim_C4 (env : Env) (st st' : ModState)
    (reportId action details actorId : String) (now : Nat)
    (hban : action = "temporary_ban" ∨ action = "permanent_ban")
    (h : actionRoute env st reportId action details actorId now = (.success, st')) :
    ∃ r, st.userReports.find? (fun x => x.id == reportId) = some r ∧
      (action = "temporary_ban" →
        st'.dirCalls = st.dirCalls ++
          [{ userId := r.reportedUser, status := "suspended",
             suspendedUntil := some (now + banMillis) }]) ∧
      (action = "permanent_ban" →
        st'.dirCalls = st.dirCalls ++
          [{ userId := r.reportedUser, status := "suspended",
             suspendedUntil := none }]) := by
  obtain ⟨r, r', hfind, -, -, hdir, -, -⟩ :=
    actionRoute_ban_dir env st st' reportId action details actorId now hban h
  refine ⟨r, hfind, ?_, ?_⟩ <;> intro ha <;> subst ha <;>
    simpa [banUpd] using hdir

/-- Witness for `claim_C4` at the concrete temporary-ban call
`banCall1`. -/
theorem claim_C4_witness :
    ∃ r, ms1.userReports.find? (fun x => x.id == "r1") = some r ∧
      ("temporary_ban" = "temporary_ban" →
        banCall1.2.dirCalls = ms1.dirCalls ++
          [{ userId := r.reportedUser, status := "suspended",
             suspendedUntil := some (100 + banMillis) }]) ∧
      ("temporary_ban" = "permanent_ban" →
        banCall1.2.dirCalls = ms1.dirCalls ++
          [{ userId := r.reportedUser, status := "suspended",
             suspendedUntil := none }]) :=
  claim_C4 env1 ms1 banCall1.2 "r1" "temporary_ban" "ban this user now" "a1" 100
    (Or.inl rfl) (by decide)

/-- Claim C5 (corrected), counterexample: two calls with the identical
`(reportId, action, actorId)` triple both succeed; the report ends with
exactly one `actionsTaken` entry, but TWO directory-side-effect calls were
issued — not the single one the claim requires. -/
theorem claim_C5_counterexample :
    banCall1.1 = .success ∧ banCall2.1 = .success ∧
    banCall2.2.userReports.map (fun r => r.actionsTaken.length) = [1] ∧
    banCall2.2.dirCalls.length = 2 ∧ banCall2.2.dirCalls.length ≠ 1 := by
  decide

/-- Claim C5 (amended): for two successful ban-action calls with an
identical `(reportId, action, actorId)` triple, the second call is a no-op
on the report collection — the spec-modelled `takeAction` detects the
idempotency key and appends no second `actionsTaken` entry — but the route
itself has no idempotency detection for the consequence, so the
user-suspension directory update is issued once per call: two directory
calls in total, not one. -/
theorem claim_C5_amended (env : Env) (st st1 st2 : ModState)
    (reportId action details actorId : String) (now1 now2 : Nat)
    (hban : action = "temporary_ban" ∨ action = "permanent_ban")
    (h1 : actionRoute env st reportId action details actorId now1 = (.success, st1))
    (h2 : actionRoute env st1 reportId action details actorId now2 = (.success, st2)) :
    st2.userReports = st1.userReports ∧
    st2.dirCalls.length = st.dirCalls.length + 2 := by
  obtain ⟨r, r', hfind, hok, hrep1, hdir1, hval, hadm⟩ :=
    actionRoute_ban_dir env st st1 reportId action details actorId now1 hban h1
  obtain ⟨hid, -⟩ := takeActionModel_ok_id r r' action (jsTrim details) actorId now1 hok
  have hkey := takeActionModel_ok_key r r' action (jsTrim details) actorId now1 hok
  have hfind2 : st1.userReports.find? (fun x => x.id == reportId) = some r' := by
    rw [hrep1]
    exact find?_replaceReport st.userReports reportId r r' hid hfind
  have hbb : (action == "temporary_ban" || action == "permanent_ban") = true := by
    rcases hban with h | h <;> simp [h]
  have heval := actionRoute_eval_ban env st1 reportId action details actorId now2 r'
    hval hadm hbb hfind2 hkey
  rw [heval] at h2
  obtain ⟨-, h2'⟩ := Prod.mk.injEq .. ▸ h2
  cases h2'
  constructor
  · show replaceReport st1.userReports reportId r' = st1.userReports
    rw [hrep1]
    exact replaceReport_idem st.userReports reportId r'
  · show (st1.dirCalls ++ [banUpd action r' now2]).length = st.dirCalls.length + 2
    rw [hdir1]
    simp

/-- Witness for `claim_C5_amended` at the two concrete temporary-ban
calls. -/
theorem claim_C5_amended_witness :
    banCall2.2.userReports = banCall1.2.userReports ∧
    banCall2.2.dirCalls.length = ms1.dirCalls.length + 2 :=
  claim_C5_amended env1 ms1 banCall1.2 banCall2.2 "r1" "temporary_ban"
    "ban this user now" "a1" 100 200 (Or.inl rfl) (by decide) (by decide)

end TreesModeration
